import Mathlib

/-!
Shallow embedding of the client-side social/chat data-synchronization layer
of the chat-on-chain repository (React hooks `useChat`, `useActivity`,
`useFriends`, `useEns`, the Pinata IPFS wrapper and the viem contract
wrappers), together with proofs about the embedded operations.

External effects (contract reads/writes, IPFS uploads, the Socket.IO
dispatch, `Math.random`, `Date.now`) are passed in explicitly: fallible
calls as `Except String _` values (a `.error` models the promise
rejecting / the call throwing), randomness and clocks as oracle
parameters.  JavaScript strings are modelled as Lean `String`, bigint
amounts as `Nat` (wei), and the hook `setXxx` state updates as explicit
state passed in and returned.
-/

namespace ChainChat

/-! ### Constants (src/libs/constants.ts) -/

/-- `APP_CONFIG.DICEBEAR_API` from `src/libs/constants.ts`. -/
def DICEBEAR_API : String := "https://api.dicebear.com/7.x/avataaars/svg"

/-- `IPFS_CONFIG.PINATA_GATEWAY` default from `src/libs/constants.ts`. -/
def PINATA_GATEWAY : String := "https://gateway.pinata.cloud"

/-- `CONTRACT_CONSTANTS.GROUPS.GROUP_CREATION_FEE` (an ETH decimal string). -/
def GROUP_CREATION_FEE : String := "0.001"

/-- `pinataService.getGatewayUrl`: gateway URL for an IPFS hash. -/
def getGatewayUrl (ipfsHash : String) : String :=
  PINATA_GATEWAY ++ "/ipfs/" ++ ipfsHash

/-- viem `parseEther`, restricted to plain decimal strings with at most 18
fractional digits (the only shapes this codebase passes to it). -/
def parseEther (s : String) : Option Nat :=
  match s.splitOn "." with
  | [i] => (i.toNat?).map (· * 10 ^ 18)
  | [i, f] =>
      if f.length ≤ 18 then
        match i.toNat?, f.toNat? with
        | some iv, some fv => some (iv * 10 ^ 18 + fv * 10 ^ (18 - f.length))
        | _, _ => none
      else none
  | _ => none

/-- JavaScript `String.prototype.toLowerCase`, as a per-character map
(the addresses this codebase lowercases are ASCII). -/
def jsToLowerCase (s : String) : String := ⟨s.data.map Char.toLower⟩

/-- JavaScript `String.prototype.includes`, via `splitOn`: a pattern occurs
in `s` iff splitting on it produces more than one piece. -/
def jsIncludes (s pat : String) : Bool :=
  (s.splitOn pat).length > 1

/-! ### Data model -/

/-- Profile returned by `getProfileByAddress` (`EnsProfile` minus fields the
claims never touch). -/
structure Profile where
  username : String
  bio : String
  avatarHash : String
  avatarUrl : String
  deriving Repr, DecidableEq

/-- Raw profile struct returned by the ENS contract read
(`ensContract.getProfile`). -/
structure ContractProfile where
  username : String
  bio : String
  avatarHash : String
  registrationTime : Nat
  deriving Repr, DecidableEq

/-- A chat participant (`ChatParticipant` in the hooks). -/
structure ChatParticipant where
  address : String
  username : String
  avatar : String
  isOnline : Bool
  lastSeen : String
  deriving Repr, DecidableEq

/-- The chat kind union of `private` and `group`. -/
inductive ChatKind where
  | priv
  | group
  deriving Repr, DecidableEq

/-- Group settings struct (`getGroupSettings` result). -/
structure GroupSettings where
  isPublic : Bool
  requireApproval : Bool
  allowInvites : Bool
  maxMembers : Nat
  deriving Repr, DecidableEq

/-- A conversation (`Chat` in the hooks).  `createdAt` is a millisecond
timestamp. -/
structure Chat where
  id : String
  type : ChatKind
  name : Option String := none
  description : Option String := none
  avatar : Option String := none
  participants : List ChatParticipant
  unreadCount : Nat
  isAdmin : Option Bool := none
  createdAt : Nat
  groupType : Option Nat := none
  settings : Option GroupSettings := none
  deriving Repr, DecidableEq

/-- The full delivery-status union of `sending`, `sent`, `delivered`, `read`
type of `ChatMessage`; note there is no failed state. -/
inductive DeliveryStatus where
  | sending
  | sent
  | delivered
  | read
  deriving Repr, DecidableEq

/-- The message kind union of `text`, `image`, `file`, `system`. -/
inductive MessageKind where
  | text
  | image
  | file
  | system
  deriving Repr, DecidableEq

/-- A chat message (`ChatMessage` in the hooks). -/
structure ChatMessage where
  id : String
  senderId : String
  senderUsername : String
  senderAvatar : String
  content : String
  timestamp : Nat
  type : MessageKind
  status : DeliveryStatus
  fileUrl : Option String := none
  fileName : Option String := none
  deriving Repr, DecidableEq

/-- Presence values drawn from `Math.random()` for a participant
(`isOnline: Math.random() > 0.5`, `lastSeen: Math.random() > 0.7 ? ...`);
modelled as an oracle result. -/
structure Presence where
  isOnline : Bool
  lastSeen : String
  deriving Repr, DecidableEq

/-! ### Private conversation ids (`friendToChat`) -/

/-- JavaScript `[a, b].sort()` on a two-element string array: the default
comparator orders lexicographically, and a stable sort of two elements
puts the smaller first. -/
def jsSortTwo (a b : String) : List String :=
  if a ≤ b then [a, b] else [b, a]

/-- The private conversation id built in `friendToChat`:
the string `private-` followed by the two addresses sorted and joined with a dash. -/
def friendChatId (address friendAddress : String) : String :=
  "private-" ++ String.intercalate "-" (jsSortTwo address friendAddress)

/-- `friendToChat` (useActivity.ts): synthesize the private conversation
with a friend.  `getProfile` is `getProfileByAddress` (which catches its
own errors and returns `null`, hence `Option`), `presence` the
`Math.random` draws for the friend, `now` the `new Date()` clock. -/
def friendToChat (address : Option String) (getProfile : String → Option Profile)
    (presence : String → Presence) (now : Nat) (friendAddress : String) :
    Option Chat :=
  match address with
  | none => none
  | some addr =>
    match getProfile friendAddress with
    | none => none
    | some profile =>
      match getProfile addr with
      | none => none
      | some currentUserProfile =>
        some
          { id := friendChatId addr friendAddress
            type := ChatKind.priv
            participants :=
              [ { address := addr
                  username := currentUserProfile.username
                  avatar := currentUserProfile.avatarUrl
                  isOnline := true
                  lastSeen := "now" },
                { address := friendAddress
                  username := profile.username
                  avatar := profile.avatarUrl
                  isOnline := (presence friendAddress).isOnline
                  lastSeen := (presence friendAddress).lastSeen } ]
            unreadCount := 0
            createdAt := now }

/-! ### Activity feed (`addActivity`, useActivity.ts) -/

/-- Author field of an activity item. -/
structure ActivityUser where
  address : String
  username : String
  avatar : String
  deriving Repr, DecidableEq

/-- An activity feed entry (`ActivityItem`). -/
structure ActivityItem where
  id : String
  type : String
  title : String
  description : String
  timestamp : Nat
  user : ActivityUser
  actionUrl : Option String := none
  tokenReward : Option Nat := none
  isRead : Bool
  deriving Repr, DecidableEq

/-- Input to `addActivity`: an `ActivityItem` minus `id`, `timestamp`, `isRead`. -/
structure NewActivity where
  type : String
  title : String
  description : String
  user : ActivityUser
  actionUrl : Option String := none
  tokenReward : Option Nat := none
  deriving Repr, DecidableEq

/-- The freshly built item `addActivity` prepends (`id` from
`Date.now()-Math.random()`, modelled as the oracle string `idSeed`). -/
def newActivityItem (a : NewActivity) (idSeed : String) (now : Nat) :
    ActivityItem :=
  { id := idSeed
    type := a.type
    title := a.title
    description := a.description
    timestamp := now
    user := a.user
    actionUrl := a.actionUrl
    tokenReward := a.tokenReward
    isRead := false }

/-- `addActivity`: `setActivities(prev => [newActivity, ...prev].slice(0, 100))`. -/
def addActivity (a : NewActivity) (idSeed : String) (now : Nat)
    (prev : List ActivityItem) : List ActivityItem :=
  (newActivityItem a idSeed now :: prev).take 100

/-! ### Identity cache (`getProfileByAddress`, useEns.ts) -/

/-- `getProfileByAddress` (useEns.ts): read the contract profile, return
`null` on a missing username or on any thrown error; resolve the avatar
through the IPFS gateway when an avatar hash is set, otherwise derive the
DiceBear placeholder from the username. -/
def getProfileByAddress (getProfile : String → Except String ContractProfile)
    (userAddress : String) : Option Profile :=
  match getProfile userAddress with
  | Except.error _ => none
  | Except.ok contractProfile =>
    if contractProfile.username = "" then none
    else
      let avatarUrl :=
        if contractProfile.avatarHash ≠ "" then
          getGatewayUrl contractProfile.avatarHash
        else
          DICEBEAR_API ++ "?seed=" ++ contractProfile.username
      some
        { username := contractProfile.username
          bio := contractProfile.bio
          avatarHash := contractProfile.avatarHash
          avatarUrl := avatarUrl }

/-! ### Social graph cache (`sendFriendRequest`, useFriends.ts) -/

/-- Substring-based classification of a thrown error in
the `sendFriendRequest` catch block. -/
def classifySendError (msg : String) : String :=
  if jsIncludes msg "not registered" then "Target user is not registered"
  else if jsIncludes msg "already sent" then "Friend request already sent"
  else if jsIncludes msg "already friends" then "Already friends with this user"
  else msg

/-- Result of a mutating hook call: the returned boolean, the hook error
state, and the number of ledger write calls issued. -/
structure SendReqResult where
  ok : Bool
  error : Option String
  writeCalls : Nat
  deriving Repr, DecidableEq

/-- `sendFriendRequest` (useFriends.ts): self-check, then the
`areFriends` / `friendRequestExists` reads, then the message-length
check, then the single write.  The three contract calls are passed as
`Except` values (their outcome for this invocation). -/
def sendFriendRequest (address : Option String)
    (areFriends requestExists : Except String Bool)
    (submitRequest : Except String String)
    (friendAddress message : String) : SendReqResult :=
  match address with
  | none => { ok := false, error := some "Wallet not connected", writeCalls := 0 }
  | some addr =>
    if jsToLowerCase friendAddress = jsToLowerCase addr then
      { ok := false
        error := some "Cannot send friend request to yourself"
        writeCalls := 0 }
    else
      match areFriends with
      | Except.error e =>
          { ok := false, error := some (classifySendError e), writeCalls := 0 }
      | Except.ok true =>
          { ok := false, error := some "Already friends with this user", writeCalls := 0 }
      | Except.ok false =>
        match requestExists with
        | Except.error e =>
            { ok := false, error := some (classifySendError e), writeCalls := 0 }
        | Except.ok true =>
            { ok := false, error := some "Friend request already sent", writeCalls := 0 }
        | Except.ok false =>
          if message.length > 200 then
            { ok := false
              error := some "Message too long (max 200 characters)"
              writeCalls := 0 }
          else
            match submitRequest with
            | Except.ok _ => { ok := true, error := none, writeCalls := 1 }
            | Except.error e =>
                { ok := false, error := some (classifySendError e), writeCalls := 1 }

/-! ### Conversation loading (`groupToChat`, `loadChats`, useActivity.ts) -/

/-- Group struct returned by `groupsContract.getGroup` (fields the hook
reads; `createdAt` in seconds). -/
structure GroupData where
  id : Nat
  name : String
  description : String
  avatarHash : String
  createdAt : Nat
  groupType : Nat
  deriving Repr, DecidableEq

/-- The group-contract reads `loadChats`/`groupToChat` perform, each an
oracle that may throw. -/
structure GroupsLedger where
  getUserGroups : String → Except String (List Nat)
  getGroup : Nat → Except String GroupData
  getGroupMembers : Nat → Except String (List String)
  getGroupSettings : Nat → Except String GroupSettings
  isGroupAdmin : Nat → String → Except String Bool

/-- `groupToChat` (useActivity.ts): fetch members, settings and the admin
flag and build the group conversation; any of the three reads throwing
propagates to the caller. -/
def groupToChat (address : String) (L : GroupsLedger)
    (getProfile : String → Option Profile) (presence : String → Presence)
    (groupData : GroupData) : Except String Chat := do
  let members ← L.getGroupMembers groupData.id
  let settings ← L.getGroupSettings groupData.id
  let participants := members.filterMap (fun memberAddress =>
    (getProfile memberAddress).map (fun profile =>
      { address := memberAddress
        username := profile.username
        avatar := profile.avatarUrl
        isOnline := (presence memberAddress).isOnline
        lastSeen := (presence memberAddress).lastSeen }))
  let isAdmin ← L.isGroupAdmin groupData.id address
  return {
      id := "group-" ++ toString groupData.id
      type := ChatKind.group
      name := some groupData.name
      description := some groupData.description
      avatar :=
        if groupData.avatarHash ≠ "" then
          some (getGatewayUrl groupData.avatarHash)
        else none
      participants := participants
      unreadCount := 0
      isAdmin := some isAdmin
      createdAt := groupData.createdAt * 1000
      groupType := some groupData.groupType
      settings := some
        { isPublic := settings.isPublic
          requireApproval := settings.requireApproval
          allowInvites := settings.allowInvites
          maxMembers := settings.maxMembers } }

/-- Conversation-list slice of the chat hook state. -/
structure ChatListState where
  chats : List Chat
  error : Option String
  deriving Repr, DecidableEq

/-- `loadChats` (useActivity.ts): rebuild the conversation list.  Each
group is loaded inside its own try/catch (a failing group is skipped),
each friend likewise; only `getUserGroups` throwing reaches the outer
catch, which leaves the previous list in place and sets the error. -/
def loadChats (address : Option String) (L : GroupsLedger)
    (getProfile : String → Option Profile) (presence : String → Presence)
    (now : Nat) (friends : List String) (st : ChatListState) : ChatListState :=
  match address with
  | none => st
  | some addr =>
    match L.getUserGroups addr with
    | Except.error _ => { st with error := some "Failed to load chats" }
    | Except.ok userGroups =>
      let groupChats := userGroups.filterMap fun groupId =>
        match L.getGroup groupId >>= groupToChat addr L getProfile presence with
        | Except.ok chat => some chat
        | Except.error _ => none
      let privateChats := friends.filterMap fun friend =>
        friendToChat (some addr) getProfile presence now friend
      { chats := groupChats ++ privateChats, error := none }

/-! ### Messaging (`sendMessage`, `sendFileMessage`, useActivity.ts;
`pinataService.validateFile`, src/libs/ipfs/pinata.ts) -/

/-- A `File` as the hooks see it. -/
structure FileData where
  name : String
  size : Nat
  type : String
  deriving Repr, DecidableEq

/-- Result shape of `validateFile`. -/
structure ValidationResult where
  valid : Bool
  error : Option String := none
  deriving Repr, DecidableEq

/-- The media types `validateFile` accepts. -/
def allowedTypes : List String :=
  [ "image/jpeg", "image/png", "image/gif", "image/webp",
    "video/mp4", "video/webm", "application/pdf", "text/plain" ]

/-- `pinataService.validateFile`: size limit (default 10 MB) then type
whitelist. -/
def validateFile (file : FileData) (maxSizeMB : Nat := 10) : ValidationResult :=
  let maxSize := maxSizeMB * 1024 * 1024
  if file.size > maxSize then
    { valid := false
      error := some ("File size exceeds " ++ toString maxSizeMB ++ "MB limit") }
  else if ¬ allowedTypes.contains file.type then
    { valid := false, error := some "File type not supported" }
  else
    { valid := true }

/-- Result of a send operation: the returned boolean, the message timeline
after the call, the hook error state, and the payloads handed to
`socketService.sendMessage` (room id × message). -/
structure SendMsgResult where
  ok : Bool
  messages : List ChatMessage
  error : Option String
  dispatched : List (String × ChatMessage)
  deriving Repr, DecidableEq

/-- `sendMessage` (useActivity.ts): build the message in `sending` state,
append it to the timeline, dispatch it over the socket, and mark it
`sent`; if the dispatch throws, the catch block still maps the message
status to `sent` and returns false.  `dispatch` is the socket call
outcome, `idSeed` the `Date.now()`-`Math.random()` id. -/
def sendMessage (activeChat : Option Chat) (address : Option String)
    (getProfile : String → Option Profile) (dispatch : Except String Unit)
    (idSeed : String) (now : Nat) (content : String)
    (messages : List ChatMessage) : SendMsgResult :=
  match activeChat, address with
  | none, _ =>
      { ok := false, messages := messages
        error := some "No active chat or wallet not connected", dispatched := [] }
  | some _, none =>
      { ok := false, messages := messages
        error := some "No active chat or wallet not connected", dispatched := [] }
  | some chat, some addr =>
    match getProfile addr with
    | none =>
        { ok := false, messages := messages
          error := some "Could not load user profile", dispatched := [] }
    | some currentUserProfile =>
      let message : ChatMessage :=
        { id := idSeed
          senderId := addr
          senderUsername := currentUserProfile.username
          senderAvatar := currentUserProfile.avatarUrl
          content := content
          timestamp := now
          type := MessageKind.text
          status := DeliveryStatus.sending }
      let appended := messages ++ [message]
      let marked := appended.map (fun msg =>
        if msg.id = message.id then { msg with status := DeliveryStatus.sent }
        else msg)
      match dispatch with
      | Except.ok _ =>
          { ok := true, messages := marked, error := none
            dispatched := [(chat.id, { message with status := DeliveryStatus.sent })] }
      | Except.error _ =>
          { ok := false, messages := marked
            error := some "Failed to send message"
            dispatched := [] }

/-- `sendFileMessage` (useActivity.ts): validate, resolve the own profile,
upload to IPFS, and only then build/append/dispatch the message; a failed
upload is caught before any message exists.  `upload` is the
`pinataService.uploadFile` outcome for this call. -/
def sendFileMessage (activeChat : Option Chat) (address : Option String)
    (getProfile : String → Option Profile) (upload : Except String String)
    (dispatch : Except String Unit) (idSeed : String) (now : Nat)
    (file : FileData) (messages : List ChatMessage) : SendMsgResult :=
  match activeChat, address with
  | none, _ =>
      { ok := false, messages := messages
        error := some "No active chat or wallet not connected", dispatched := [] }
  | some _, none =>
      { ok := false, messages := messages
        error := some "No active chat or wallet not connected", dispatched := [] }
  | some chat, some addr =>
    let validation := validateFile file
    if ¬ validation.valid then
      { ok := false, messages := messages
        error := some (validation.error.getD "Invalid file"), dispatched := [] }
    else
      match getProfile addr with
      | none =>
          { ok := false, messages := messages
            error := some "Could not load user profile", dispatched := [] }
      | some currentUserProfile =>
        match upload with
        | Except.error _ =>
            { ok := false, messages := messages
              error := some "Failed to send file", dispatched := [] }
        | Except.ok fileHash =>
          let fileUrl := getGatewayUrl fileHash
          let messageType :=
            if file.type.startsWith "image/" then MessageKind.image
            else MessageKind.file
          let message : ChatMessage :=
            { id := idSeed
              senderId := addr
              senderUsername := currentUserProfile.username
              senderAvatar := currentUserProfile.avatarUrl
              content := file.name
              timestamp := now
              type := messageType
              status := DeliveryStatus.sending
              fileUrl := some fileUrl
              fileName := some file.name }
          let appended := messages ++ [message]
          let marked := appended.map (fun msg =>
            if msg.id = message.id then { msg with status := DeliveryStatus.sent }
            else msg)
          match dispatch with
          | Except.ok _ =>
              { ok := true, messages := marked, error := none
                dispatched := [(chat.id, { message with status := DeliveryStatus.sent })] }
          | Except.error _ =>
              { ok := false, messages := appended
                error := some "Failed to send file", dispatched := [] }

/-! ### Token burn (`burnTokens`, useActivity.ts) -/

/-- The slice of `tokenStats` relevant to `burnTokens` — the Reward Ledger
View cached balance (wei), held in hook state when `burnTokens` runs. -/
structure TokenStatsCache where
  balanceWei : Nat
  deriving Repr, DecidableEq

/-- Result of `burnTokens`: the returned boolean, the error state, and the
amounts (wei) submitted to `chatTokenContract.burn`. -/
structure BurnResult where
  ok : Bool
  error : Option String
  burnWrites : List Nat
  deriving Repr, DecidableEq

/-- `burnTokens` (useActivity.ts): fetch the balance with a fresh
`chatTokenContract.getBalance` read, convert the requested amount to wei
(`BigInt(parseFloat(amount) * 10**18)`, modelled for whole-token amounts,
where that double computation is exact), compare, and submit the burn.
The cached `tokenStats` is in scope but never consulted. -/
def burnTokens (address : Option String) (cached : TokenStatsCache)
    (getBalance : Except String Nat) (submitBurn : Nat → Except String String)
    (amountTokens : Nat) : BurnResult :=
  match address with
  | none => { ok := false, error := some "Wallet not connected", burnWrites := [] }
  | some _ =>
    match getBalance with
    | Except.error e => { ok := false, error := some e, burnWrites := [] }
    | Except.ok balance =>
      let amountWei := amountTokens * 10 ^ 18
      if amountWei > balance then
        { ok := false, error := some "Insufficient balance", burnWrites := [] }
      else
        match submitBurn amountWei with
        | Except.ok _ => { ok := true, error := none, burnWrites := [amountWei] }
        | Except.error e =>
            { ok := false
              error :=
                some e
              burnWrites := [amountWei] }

/-! ### Group leave/create (`leaveGroup`, `createGroup`, useActivity.ts;
`groupsContract.createGroup`, contract wrapper) -/

/-- Result of `leaveGroup`: the returned boolean, the conversation list and
active selection after the call, the error state, and the group ids
submitted to `groupsContract.leaveGroup`. -/
structure LeaveResult where
  ok : Bool
  chats : List Chat
  activeChat : Option Chat
  error : Option String
  leaveWrites : List Nat
  deriving Repr, DecidableEq

/-- Substring-based classification in the `leaveGroup` catch block. -/
def classifyLeaveError (msg : String) : String :=
  if jsIncludes msg "creator cannot leave" then
    "Group creator cannot leave. Transfer ownership first."
  else msg

/-- `leaveGroup` (useActivity.ts): membership precondition read, the single
write, then the optimistic cache update — drop `group-<id>` from the list
and clear the active selection if it was that conversation.  A throwing
write reaches the catch block before any cache change. -/
def leaveGroup (address : Option String) (isGroupMember : Except String Bool)
    (submitLeave : Nat → Except String String) (groupId : Nat)
    (chats : List Chat) (activeChat : Option Chat) : LeaveResult :=
  match address with
  | none =>
      { ok := false, chats := chats, activeChat := activeChat
        error := some "Wallet not connected", leaveWrites := [] }
  | some _ =>
    match isGroupMember with
    | Except.error e =>
        { ok := false, chats := chats, activeChat := activeChat
          error := some (classifyLeaveError e), leaveWrites := [] }
    | Except.ok false =>
        { ok := false, chats := chats, activeChat := activeChat
          error := some "Not a member of this group", leaveWrites := [] }
    | Except.ok true =>
      match submitLeave groupId with
      | Except.error e =>
          { ok := false, chats := chats, activeChat := activeChat
            error := some (classifyLeaveError e), leaveWrites := [groupId] }
      | Except.ok _ =>
          { ok := true
            chats := chats.filter (fun chat => chat.id ≠ "group-" ++ toString groupId)
            activeChat :=
              match activeChat with
              | some ac =>
                  if ac.id = "group-" ++ toString groupId then none else some ac
              | none => none
            error := none
            leaveWrites := [groupId] }

/-- A ledger write call: method name, string/numeric/boolean arguments,
and the attached ETH value (wei), when any. -/
structure WriteCall where
  method : String
  strArgs : List String := []
  natArgs : List Nat := []
  boolArgs : List Bool := []
  value : Option Nat := none
  deriving Repr, DecidableEq

/-- `groupsContract.createGroup` (contract wrapper,
`contract.write.createGroup([name, description, avatarHash, groupType,
isPublic]` with value `parseEther` of the fee string attached). -/
def groupsCreateGroupCall (name description avatarHash : String)
    (groupType : Nat) (isPublic : Bool) : WriteCall :=
  { method := "createGroup"
    strArgs := [name, description, avatarHash]
    natArgs := [groupType]
    boolArgs := [isPublic]
    value := parseEther "0.001" }

/-- Result of the `createGroup` hook: the returned boolean, the error
state, and the ledger write calls issued. -/
structure CreateGroupResult where
  ok : Bool
  error : Option String
  writes : List WriteCall
  deriving Repr, DecidableEq

/-- Substring-based classification in the `createGroup` catch block. -/
def classifyCreateGroupError (msg : String) : String :=
  if jsIncludes msg "insufficient" then "Insufficient balance for group creation fee"
  else if jsIncludes msg "invalid name" then "Invalid group name"
  else msg

/-- `createGroup` (useActivity.ts): upload the group metadata JSON to
IPFS, then issue the single `groupsContract.createGroup` write (which
attaches the fixed creation fee); either step throwing reaches the catch
block.  `uploadJSON` and `submit` are the outcomes of the two external
calls. -/
def createGroup (address : Option String) (uploadJSON : Except String String)
    (submit : WriteCall → Except String String)
    (name description : String) (groupType : Nat) (isPublic : Bool) :
    CreateGroupResult :=
  match address with
  | none => { ok := false, error := some "Wallet not connected", writes := [] }
  | some _ =>
    match uploadJSON with
    | Except.error e =>
        { ok := false, error := some (classifyCreateGroupError e), writes := [] }
    | Except.ok avatarHash =>
      let call := groupsCreateGroupCall name description avatarHash groupType isPublic
      match submit call with
      | Except.ok _ =>
          { ok := true, error := none, writes := [call] }
      | Except.error e =>
          { ok := false, error := some (classifyCreateGroupError e)
            writes := [call] }

/-- `loadChats` as defined in the older duplicate hook in useChat.ts
(lines 149-181): the same reload, but with NO per-item try/catch — the
whole group loop sits in the single outer try, so the first group fetch
that throws aborts the reload, sets the error, and leaves the previous
conversation list untouched. -/
def loadChatsLegacy (address : Option String) (L : GroupsLedger)
    (getProfile : String → Option Profile) (presence : String → Presence)
    (now : Nat) (friends : List String) (st : ChatListState) : ChatListState :=
  match address with
  | none => st
  | some addr =>
    match (do
        let userGroups ← L.getUserGroups addr
        userGroups.mapM (fun groupId =>
          L.getGroup groupId >>= groupToChat addr L getProfile presence)) with
    | Except.error _ => { st with error := some "Failed to load chats" }
    | Except.ok groupChats =>
      let privateChats := friends.filterMap (fun friend =>
        friendToChat (some addr) getProfile presence now friend)
      { chats := groupChats ++ privateChats, error := none }

/-! ### Concrete fixtures used by the witness theorems -/

namespace Fx

/-- A concrete profile for address `a`. -/
def profileOf (a : String) : Profile :=
  { username := "u" ++ a, bio := "", avatarHash := "", avatarUrl := "av" ++ a }

/-- A total profile oracle: every address resolves. -/
def profileFn : String → Option Profile := fun a => some (profileOf a)

/-- A fixed presence oracle. -/
def presenceFn : String → Presence := fun _ => { isOnline := true, lastSeen := "now" }

/-- Fixed group settings. -/
def settings0 : GroupSettings :=
  { isPublic := true, requireApproval := false, allowInvites := true, maxMembers := 100 }

/-- Concrete group data for group `g`. -/
def groupData (g : Nat) : GroupData :=
  { id := g, name := "G" ++ toString g, description := "d", avatarHash := ""
    createdAt := 7, groupType := 0 }

/-- A ledger reporting groups 1, 2, 3 whose `getGroup` throws exactly on
group 2. -/
def ledger : GroupsLedger :=
  { getUserGroups := fun _ => Except.ok [1, 2, 3]
    getGroup := fun g =>
      if g = 2 then Except.error "network error" else Except.ok (groupData g)
    getGroupMembers := fun _ => Except.ok ["0xM"]
    getGroupSettings := fun _ => Except.ok settings0
    isGroupAdmin := fun _ _ => Except.ok true }

/-- The conversation `groupToChat` builds for group `g` under `ledger`. -/
def groupChat (g : Nat) : Chat :=
  { id := "group-" ++ toString g
    type := ChatKind.group
    name := some ("G" ++ toString g)
    description := some "d"
    avatar := none
    participants :=
      [ { address := "0xM", username := "u0xM", avatar := "av0xM"
          isOnline := true, lastSeen := "now" } ]
    unreadCount := 0
    isAdmin := some true
    createdAt := 7000
    groupType := some 0
    settings := some settings0 }

/-- The private conversation `friendToChat` builds for friend `f` of
viewer `0xA` under `profileFn` at time 5. -/
def privChat (f : String) : Chat :=
  { id := friendChatId "0xA" f
    type := ChatKind.priv
    participants :=
      [ { address := "0xA", username := "u0xA", avatar := "av0xA"
          isOnline := true, lastSeen := "now" },
        { address := f, username := "u" ++ f, avatar := "av" ++ f
          isOnline := true, lastSeen := "now" } ]
    unreadCount := 0
    createdAt := 5 }

/-- A concrete activity author. -/
def user0 : ActivityUser := { address := "0xA", username := "alice", avatar := "" }

/-- A concrete activity item. -/
def item0 : ActivityItem :=
  { id := "old", type := "welcome", title := "t", description := "d"
    timestamp := 1, user := user0, isRead := false }

/-- A concrete `addActivity` input. -/
def new0 : NewActivity :=
  { type := "token_burn", title := "Tokens Burned", description := "x", user := user0 }

/-- A contract profile with username `alice`, no avatar hash. -/
def cp1 : ContractProfile :=
  { username := "alice", bio := "first read", avatarHash := "", registrationTime := 1 }

/-- A second read of the same username, differing elsewhere. -/
def cp2 : ContractProfile :=
  { username := "alice", bio := "second read", avatarHash := "", registrationTime := 2 }

/-- First resolution oracle. -/
def resolve1 : String → Except String ContractProfile := fun _ => Except.ok cp1

/-- Second resolution oracle. -/
def resolve2 : String → Except String ContractProfile := fun _ => Except.ok cp2

/-- An active conversation for the messaging witnesses. -/
def chat0 : Chat :=
  { id := "group-9", type := ChatKind.group, participants := []
    unreadCount := 0, createdAt := 0 }

/-- A burn submitter that always succeeds. -/
def submitBurn0 : Nat → Except String String := fun _ => Except.ok "0xtx"

/-- A cached balance of 5 tokens. -/
def cachedLow : TokenStatsCache := { balanceWei := 5 * 10 ^ 18 }

/-- A leave submitter that always succeeds. -/
def submitLeave0 : Nat → Except String String := fun _ => Except.ok "0xtx"

/-- Conversation fixtures for the leave-group witness. -/
def g5 : Chat :=
  { id := "group-5", type := ChatKind.group, participants := []
    unreadCount := 0, createdAt := 0 }

/-- A second group conversation. -/
def g7 : Chat :=
  { id := "group-7", type := ChatKind.group, participants := []
    unreadCount := 0, createdAt := 0 }

/-- A private conversation. -/
def pv : Chat :=
  { id := "private-0xA-0xB", type := ChatKind.priv, participants := []
    unreadCount := 0, createdAt := 0 }

/-- A write submitter that always succeeds. -/
def submitWrite0 : WriteCall → Except String String := fun _ => Except.ok "0xtx"

end Fx

/-! ### Helper lemmas -/

/-- A `filterMap` where every element maps to `some` is a `map`. -/
theorem list_filterMap_all_some {α β : Type} (l : List α) (F : α → Option β)
    (pf : α → β) (h : ∀ a ∈ l, F a = some (pf a)) : l.filterMap F = l.map pf := by
  induction l with
  | nil => rfl
  | cons x xs ih =>
    rw [List.filterMap_cons, h x (List.mem_cons_self x xs), List.map_cons,
      ih (fun a ha => h a (List.mem_cons_of_mem x ha))]

/-- A `filterMap` that fails only on one designated element drops exactly
that element. -/
theorem list_filterMap_skip_bad {α β : Type} [DecidableEq α] (l : List α)
    (F : α → Option β) (bad : α) (cf : α → β) (h1 : F bad = none)
    (h2 : ∀ a ∈ l, a ≠ bad → F a = some (cf a)) :
    l.filterMap F = (l.filter (fun a => a ≠ bad)).map cf := by
  induction l with
  | nil => rfl
  | cons x xs ih =>
    have ih' := ih (fun a ha hne => h2 a (List.mem_cons_of_mem x ha) hne)
    by_cases hx : x = bad
    · subst hx
      rw [List.filterMap_cons, h1, List.filter_cons]
      simpa using ih'
    · rw [List.filterMap_cons, h2 x (List.mem_cons_self x xs) hx, List.filter_cons]
      simp [hx, ih']

/-- Mapping a function that fixes every element of a list is the identity. -/
theorem list_map_eq_self_of {α : Type} (l : List α) (f : α → α)
    (h : ∀ a ∈ l, f a = a) : l.map f = l := by
  induction l with
  | nil => rfl
  | cons x xs ih =>
    rw [List.map_cons, h x (List.mem_cons_self x xs),
      ih (fun a ha => h a (List.mem_cons_of_mem x ha))]

/-! ### Claim theorems -/

/-- C1: the private conversation id is symmetric in the two participant
addresses — `friendChatId A B = friendChatId B A` for any two address
strings, so both peers derive the same id. -/
theorem friendChatId_symm (a b : String) : friendChatId a b = friendChatId b a := by
  unfold friendChatId jsSortTwo
  by_cases h1 : a ≤ b
  · by_cases h2 : b ≤ a
    · have hab : a = b := le_antisymm h1 h2
      subst hab
      rfl
    · simp [h1, h2]
  · have h2 : b ≤ a := (le_total a b).resolve_left h1
    simp [h1, h2]

/-- C2: calling `sendFriendRequest` with a target equal to the connected
address (case-insensitively) fails with the self-request error, returns
false, and issues no ledger write, whatever the contract oracles would
answer. -/
theorem sendFriendRequest_self_rejected (a t msg : String)
    (areFriends requestExists : Except String Bool)
    (submitRequest : Except String String)
    (h : jsToLowerCase t = jsToLowerCase a) :
    sendFriendRequest (some a) areFriends requestExists submitRequest t msg =
      { ok := false
        error := some "Cannot send friend request to yourself"
        writeCalls := 0 } := by
  unfold sendFriendRequest
  simp [h]

/-- Witness for C2 at a concrete mixed-case self address. -/
theorem sendFriendRequest_self_rejected_witness :
    jsToLowerCase "0xABCdef" = jsToLowerCase "0xabcDEF" ∧
    sendFriendRequest (some "0xabcDEF") (Except.ok false) (Except.ok false)
        (Except.ok "0xtx") "0xABCdef" "hi" =
      { ok := false
        error := some "Cannot send friend request to yourself"
        writeCalls := 0 } :=
  ⟨by decide,
    sendFriendRequest_self_rejected "0xabcDEF" "0xABCdef" "hi"
      (Except.ok false) (Except.ok false) (Except.ok "0xtx") (by decide)⟩

/-- C10: after any `addActivity` call the feed holds at most 100 entries,
the new item sits at index 0, and adding to a full feed of 100 drops the
oldest (last) entry. -/
theorem addActivity_bounded_newest_first (a : NewActivity) (idSeed : String)
    (now : Nat) (prev : List ActivityItem) :
    (addActivity a idSeed now prev).length ≤ 100 ∧
    (addActivity a idSeed now prev).head? = some (newActivityItem a idSeed now) ∧
    (prev.length = 100 →
      addActivity a idSeed now prev = newActivityItem a idSeed now :: prev.dropLast) := by
  refine ⟨?_, ?_, ?_⟩
  · unfold addActivity
    exact List.length_take_le 100 _
  · unfold addActivity
    rw [show (100 : Nat) = 99 + 1 from rfl, List.take_succ_cons]
    rfl
  · intro h
    unfold addActivity
    rw [show (100 : Nat) = 99 + 1 from rfl, List.take_succ_cons]
    congr 1
    rw [List.dropLast_eq_take, h]

/-- Witness for C10: adding to a feed of exactly 100 items keeps the new
item first and drops the last. -/
theorem addActivity_bounded_newest_first_witness :
    (List.replicate 100 Fx.item0).length = 100 ∧
    addActivity Fx.new0 "id-1" 3 (List.replicate 100 Fx.item0) =
      newActivityItem Fx.new0 "id-1" 3 :: (List.replicate 100 Fx.item0).dropLast :=
  ⟨by simp,
    (addActivity_bounded_newest_first Fx.new0 "id-1" 3
      (List.replicate 100 Fx.item0)).2.2 (by simp)⟩

/-- C3: if `getUserGroups` succeeds but fetching one group throws while
every other group and every friend resolves, `loadChats` still returns
the conversations of all other groups followed by all private
conversations — one failing group is skipped, not fatal. -/
theorem loadChats_isolates_group_failure
    (addr : String) (L : GroupsLedger) (getProfile : String → Option Profile)
    (presence : String → Presence) (now : Nat) (friends : List String)
    (st : ChatListState) (gids : List Nat) (bad : Nat) (e : String)
    (cf : Nat → Chat) (pf : String → Chat)
    (hug : L.getUserGroups addr = Except.ok gids)
    (hbad : L.getGroup bad = Except.error e)
    (hok : ∀ g ∈ gids, g ≠ bad →
      (L.getGroup g >>= groupToChat addr L getProfile presence) = Except.ok (cf g))
    (hfr : ∀ f ∈ friends, friendToChat (some addr) getProfile presence now f = some (pf f)) :
    (loadChats (some addr) L getProfile presence now friends st).chats
      = (gids.filter (fun g => g ≠ bad)).map cf ++ friends.map pf := by
  unfold loadChats
  dsimp only
  rw [hug]
  dsimp only
  congr 1
  · apply list_filterMap_skip_bad
    · rw [hbad]
      rfl
    · intro g hg hne
      rw [hok g hg hne]
  · exact list_filterMap_all_some friends _ pf hfr

/-- Witness for C3: groups 1, 2, 3 with group 2 throwing — the list still
holds groups 1 and 3 plus the private conversation. -/
theorem loadChats_isolates_group_failure_witness :
    Fx.ledger.getGroup 2 = Except.error "network error" ∧
    (loadChats (some "0xA") Fx.ledger Fx.profileFn Fx.presenceFn 5 ["0xB"]
        { chats := [], error := none }).chats
      = [Fx.groupChat 1, Fx.groupChat 3, Fx.privChat "0xB"] := by
  constructor
  · rfl
  · have h := loadChats_isolates_group_failure "0xA" Fx.ledger Fx.profileFn
      Fx.presenceFn 5 ["0xB"] { chats := [], error := none } [1, 2, 3] 2
      "network error" Fx.groupChat Fx.privChat rfl rfl
      (by
        intro g hg hne
        fin_cases hg
        · rfl
        · exact absurd rfl hne
        · rfl)
      (by
        intro f hf
        fin_cases hf
        rfl)
    rw [h]
    rfl

/-- C3 counterexample: under the same ledger (groups 1, 2, 3 with group 2
throwing), the OLDER `loadChats` variant from useChat.ts returns no
conversations at all — the failure is not isolated: the reload aborts,
the error is set, and neither the other groups nor the private
conversations are returned.  The claim as stated therefore fails for
that variant of the reload. -/
theorem loadChatsLegacy_blanks_on_one_failure :
    Fx.ledger.getGroup 2 = Except.error "network error" ∧
    (loadChatsLegacy (some "0xA") Fx.ledger Fx.profileFn Fx.presenceFn 5 ["0xB"]
        { chats := [], error := none }).chats = [] ∧
    (loadChatsLegacy (some "0xA") Fx.ledger Fx.profileFn Fx.presenceFn 5 ["0xB"]
        { chats := [], error := none }).error = some "Failed to load chats" :=
  ⟨rfl, rfl, rfl⟩

/-- C4: the placeholder avatar of a profile with no avatar hash is a
deterministic function of the username alone — any two ledger reads that
agree on a (non-empty) username and carry no avatar hash resolve to the
identical DiceBear URL. -/
theorem getProfileByAddress_placeholder_deterministic
    (g1 g2 : String → Except String ContractProfile) (addr1 addr2 : String)
    (cp1 cp2 : ContractProfile) (u : String)
    (h1 : g1 addr1 = Except.ok cp1) (h2 : g2 addr2 = Except.ok cp2)
    (hu1 : cp1.username = u) (hu2 : cp2.username = u) (hne : u ≠ "")
    (ha1 : cp1.avatarHash = "") (ha2 : cp2.avatarHash = "") :
    (getProfileByAddress g1 addr1).map Profile.avatarUrl
        = some (DICEBEAR_API ++ "?seed=" ++ u) ∧
    (getProfileByAddress g2 addr2).map Profile.avatarUrl
        = some (DICEBEAR_API ++ "?seed=" ++ u) := by
  unfold getProfileByAddress
  rw [h1, h2]
  simp [hu1, hu2, ha1, ha2, hne]

/-- Witness for C4: two reads of username `alice` (differing in bio and
registration time, both without avatar hash) resolve to the same URL. -/
theorem getProfileByAddress_placeholder_deterministic_witness :
    (getProfileByAddress Fx.resolve1 "0xA").map Profile.avatarUrl
        = some (DICEBEAR_API ++ "?seed=" ++ "alice") ∧
    (getProfileByAddress Fx.resolve2 "0xA").map Profile.avatarUrl
        = some (DICEBEAR_API ++ "?seed=" ++ "alice") :=
  getProfileByAddress_placeholder_deterministic Fx.resolve1 Fx.resolve2
    "0xA" "0xA" Fx.cp1 Fx.cp2 "alice" rfl rfl rfl rfl (by decide) rfl rfl

/-- C5: whenever the IPFS upload throws, `sendFileMessage` returns false,
leaves the message timeline unchanged, and dispatches nothing over the
socket — whatever the rest of the context looks like. -/
theorem sendFileMessage_upload_failure
    (activeChat : Option Chat) (address : Option String)
    (getProfile : String → Option Profile) (e : String)
    (dispatch : Except String Unit) (idSeed : String) (now : Nat)
    (file : FileData) (messages : List ChatMessage) :
    (sendFileMessage activeChat address getProfile (Except.error e) dispatch
        idSeed now file messages).ok = false ∧
    (sendFileMessage activeChat address getProfile (Except.error e) dispatch
        idSeed now file messages).messages = messages ∧
    (sendFileMessage activeChat address getProfile (Except.error e) dispatch
        idSeed now file messages).dispatched = [] := by
  unfold sendFileMessage
  cases activeChat with
  | none => exact ⟨rfl, rfl, rfl⟩
  | some chat =>
    cases address with
    | none => exact ⟨rfl, rfl, rfl⟩
    | some addr =>
      by_cases hv : (validateFile file).valid
      · simp only [hv, not_true_eq_false, if_false]
        cases getProfile addr with
        | none => exact ⟨rfl, rfl, rfl⟩
        | some p => exact ⟨rfl, rfl, rfl⟩
      · simp only [hv, not_false_eq_true, if_true]
        exact ⟨rfl, rfl, rfl⟩

/-- C6 counterexample: with a cached balance of 5 tokens but a fresh
ledger read of 100 tokens, burning 10 tokens — strictly more than the
cached balance — does NOT fail with the insufficient-balance error: the
call succeeds and submits a burn write, because `burnTokens` compares
against the freshly fetched balance, never the cached one. -/
theorem burnTokens_cached_balance_counterexample :
    10 * 10 ^ 18 > Fx.cachedLow.balanceWei ∧
    (burnTokens (some "0xA") Fx.cachedLow (Except.ok (100 * 10 ^ 18))
        Fx.submitBurn0 10).ok = true ∧
    (burnTokens (some "0xA") Fx.cachedLow (Except.ok (100 * 10 ^ 18))
        Fx.submitBurn0 10).error = none ∧
    (burnTokens (some "0xA") Fx.cachedLow (Except.ok (100 * 10 ^ 18))
        Fx.submitBurn0 10).burnWrites = [10 * 10 ^ 18] := by
  refine ⟨by norm_num [Fx.cachedLow], ?_, ?_, ?_⟩ <;> rfl

/-- C6 amended: for every burn amount strictly greater than the balance
returned by the fresh `getBalance` ledger read performed at call time
(not the cached one), `burnTokens` fails fast with the
insufficient-balance error, returns false, and submits no burn write. -/
theorem burnTokens_insufficient_fetched_balance
    (addr : String) (cached : TokenStatsCache)
    (submitBurn : Nat → Except String String) (amountTokens balance : Nat)
    (h : amountTokens * 10 ^ 18 > balance) :
    burnTokens (some addr) cached (Except.ok balance) submitBurn amountTokens =
      { ok := false, error := some "Insufficient balance", burnWrites := [] } := by
  unfold burnTokens
  dsimp only
  rw [if_pos h]

/-- Witness for the amended C6: burning 10 tokens against a fetched
balance of 5 tokens fails with no write, whatever is cached. -/
theorem burnTokens_insufficient_fetched_balance_witness :
    10 * 10 ^ 18 > 5 * 10 ^ 18 ∧
    burnTokens (some "0xA") Fx.cachedLow (Except.ok (5 * 10 ^ 18))
        Fx.submitBurn0 10 =
      { ok := false, error := some "Insufficient balance", burnWrites := [] } :=
  ⟨by norm_num,
    burnTokens_insufficient_fetched_balance "0xA" Fx.cachedLow Fx.submitBurn0
      10 (5 * 10 ^ 18) (by norm_num)⟩

/-- C7: when the membership read answers true and the leave write
submits, `leaveGroup` immediately (before any confirmation) removes
exactly the `group-G` conversation from the cache, keeps every other
conversation, and clears the active selection iff it was that
conversation. -/
theorem leaveGroup_optimistic_removal
    (addr : String) (submitLeave : Nat → Except String String) (gid : Nat)
    (tx : String) (chats : List Chat) (activeChat : Option Chat)
    (hs : submitLeave gid = Except.ok tx) :
    (leaveGroup (some addr) (Except.ok true) submitLeave gid chats activeChat).ok
        = true ∧
    (leaveGroup (some addr) (Except.ok true) submitLeave gid chats activeChat).chats
        = chats.filter (fun chat => chat.id ≠ "group-" ++ toString gid) ∧
    (∀ c ∈ chats, c.id ≠ "group-" ++ toString gid →
      c ∈ (leaveGroup (some addr) (Except.ok true) submitLeave gid chats
        activeChat).chats) ∧
    (∀ ac, activeChat = some ac → ac.id = "group-" ++ toString gid →
      (leaveGroup (some addr) (Except.ok true) submitLeave gid chats
        activeChat).activeChat = none) ∧
    (∀ ac, activeChat = some ac → ac.id ≠ "group-" ++ toString gid →
      (leaveGroup (some addr) (Except.ok true) submitLeave gid chats
        activeChat).activeChat = some ac) := by
  unfold leaveGroup
  dsimp only
  rw [hs]
  dsimp only
  refine ⟨rfl, rfl, ?_, ?_, ?_⟩
  · intro c hc hne
    exact List.mem_filter.mpr ⟨hc, by simpa using hne⟩
  · intro ac hac hid
    subst hac
    simp [hid]
  · intro ac hac hid
    subst hac
    simp [hid]

/-- Witness for C7: leaving group 5 while it is active removes `group-5`,
keeps `group-7` and the private conversation, and clears the selection. -/
theorem leaveGroup_optimistic_removal_witness :
    (leaveGroup (some "0xA") (Except.ok true) Fx.submitLeave0 5
        [Fx.g5, Fx.g7, Fx.pv] (some Fx.g5)).ok = true ∧
    (leaveGroup (some "0xA") (Except.ok true) Fx.submitLeave0 5
        [Fx.g5, Fx.g7, Fx.pv] (some Fx.g5)).chats = [Fx.g7, Fx.pv] ∧
    (leaveGroup (some "0xA") (Except.ok true) Fx.submitLeave0 5
        [Fx.g5, Fx.g7, Fx.pv] (some Fx.g5)).activeChat = none := by
  have h := leaveGroup_optimistic_removal "0xA" Fx.submitLeave0 5 "0xtx"
    [Fx.g5, Fx.g7, Fx.pv] (some Fx.g5) rfl
  refine ⟨h.1, ?_, h.2.2.2.1 Fx.g5 rfl rfl⟩
  rw [h.2.1]
  rfl

/-- C8: every `createGroup` run that returns true has issued exactly one
ledger write, the `createGroup` method, with an attached value equal to
`parseEther` of the fixed `GROUP_CREATION_FEE` constant. -/
theorem createGroup_single_write_with_fee
    (address : Option String) (uploadJSON : Except String String)
    (submit : WriteCall → Except String String)
    (name description : String) (groupType : Nat) (isPublic : Bool)
    (h : (createGroup address uploadJSON submit name description groupType
      isPublic).ok = true) :
    (createGroup address uploadJSON submit name description groupType
        isPublic).writes.map WriteCall.method = ["createGroup"] ∧
    (createGroup address uploadJSON submit name description groupType
        isPublic).writes.map WriteCall.value = [parseEther GROUP_CREATION_FEE] := by
  unfold createGroup at h ⊢
  cases address with
  | none => exact absurd h (by simp)
  | some a =>
    cases uploadJSON with
    | error e => exact absurd h (by simp)
    | ok avatarHash =>
      dsimp only at h ⊢
      cases hsub : submit (groupsCreateGroupCall name description avatarHash
          groupType isPublic) with
      | ok tx => exact ⟨rfl, rfl⟩
      | error e =>
        rw [hsub] at h
        exact absurd h (by simp)

/-- Witness for C8: a successful concrete run issues the one fee-carrying
write. -/
theorem createGroup_single_write_with_fee_witness :
    (createGroup (some "0xA") (Except.ok "QmHash") Fx.submitWrite0 "Devs"
        "test group" 0 true).ok = true ∧
    (createGroup (some "0xA") (Except.ok "QmHash") Fx.submitWrite0 "Devs"
        "test group" 0 true).writes.map WriteCall.value
      = [parseEther GROUP_CREATION_FEE] :=
  ⟨rfl,
    (createGroup_single_write_with_fee (some "0xA") (Except.ok "QmHash")
      Fx.submitWrite0 "Devs" "test group" 0 true rfl).2⟩

/-- C9: if the socket dispatch throws after the text message was appended,
`sendMessage` returns false yet the message stays in the timeline with
its status set to `sent` (there is no failed delivery status to set). -/
theorem sendMessage_dispatch_error_keeps_message
    (chat : Chat) (addr : String) (getProfile : String → Option Profile)
    (prof : Profile) (e idSeed : String) (now : Nat) (content : String)
    (messages : List ChatMessage)
    (hp : getProfile addr = some prof)
    (hfresh : ∀ m ∈ messages, m.id ≠ idSeed) :
    (sendMessage (some chat) (some addr) getProfile (Except.error e) idSeed now
        content messages).ok = false ∧
    (sendMessage (some chat) (some addr) getProfile (Except.error e) idSeed now
        content messages).messages
      = messages ++
        [{ id := idSeed, senderId := addr, senderUsername := prof.username
           senderAvatar := prof.avatarUrl, content := content, timestamp := now
           type := MessageKind.text, status := DeliveryStatus.sent }] ∧
    (sendMessage (some chat) (some addr) getProfile (Except.error e) idSeed now
        content messages).error = some "Failed to send message" ∧
    (∀ s : DeliveryStatus, s = DeliveryStatus.sending ∨ s = DeliveryStatus.sent
      ∨ s = DeliveryStatus.delivered ∨ s = DeliveryStatus.read) := by
  unfold sendMessage
  dsimp only
  rw [hp]
  dsimp only
  refine ⟨rfl, ?_, rfl, ?_⟩
  · rw [List.map_append]
    congr 1
    · exact list_map_eq_self_of _ _ (fun m hm => by simp [hfresh m hm])
    · simp
  · intro s
    cases s
    · exact Or.inl rfl
    · exact Or.inr (Or.inl rfl)
    · exact Or.inr (Or.inr (Or.inl rfl))
    · exact Or.inr (Or.inr (Or.inr rfl))

/-- Witness for C9: a failing dispatch on an empty timeline leaves the
message appended with status `sent` and returns false. -/
theorem sendMessage_dispatch_error_keeps_message_witness :
    (sendMessage (some Fx.chat0) (some "0xA") Fx.profileFn (Except.error "down")
        "m1" 4 "hello" []).ok = false ∧
    (sendMessage (some Fx.chat0) (some "0xA") Fx.profileFn (Except.error "down")
        "m1" 4 "hello" []).messages
      = [{ id := "m1", senderId := "0xA", senderUsername := "u0xA"
           senderAvatar := "av0xA", content := "hello", timestamp := 4
           type := MessageKind.text, status := DeliveryStatus.sent }] := by
  have h := sendMessage_dispatch_error_keeps_message Fx.chat0 "0xA" Fx.profileFn
    (Fx.profileOf "0xA") "down" "m1" 4 "hello" [] rfl (by simp)
  exact ⟨h.1, by rw [h.2.1]; rfl⟩

end ChainChat
